import Mathlib

/-!
# Vote tally service (`service/pkg.go`)

A shallow embedding of the Go package `service`: the tally store
(`Service`, `NewService`, `AddVote`, `GetStats`, `GetStatsForCandidate`) and
the two HTTP handlers built on it (`VoteHandler`, `StatsHandler`).

Modelling conventions.

* Go's `uint` is a machine word: arithmetic on it is written with an explicit
  `% uintMod`, where `uintMod = 2 ^ 64` (the width of `uint` on 64-bit targets).
* A Go map is a reference to a mutable object.  Map objects live in a `Heap`,
  and a value of map type is an address into it (`MapRef`); this keeps the
  difference between handing out a map and handing out a copy of it visible.
* `sync.RWMutex` is not part of the sequential state: every method that takes
  the lock releases it before returning, so between calls it is always free.
-/

namespace VoteService

/-! ## Machine integers -/

/-- Width in bits of Go's `uint` (and of `uint64`) on a 64-bit target. -/
def uintBits : Nat := 64

/-- Number of values of a Go `uint`; arithmetic on `uint` wraps modulo this. -/
def uintMod : Nat := 2 ^ uintBits

/-! ## Maps and the heap -/

/-- Contents of a `map[uint]uint` object: the value stored under each key, `none` for a key
that is not in the map. -/
abbrev GoMap := Nat → Option Nat

/-- Address of a map object. -/
abbrev MapRef := Nat

/-- The empty map made by `make(map[uint]uint)`. -/
def GoMap.empty : GoMap := fun _ => none

/-- Go's `m[k]` in an expression: the stored value, or the zero value when `k` is absent. -/
def GoMap.index (m : GoMap) (k : Nat) : Nat := (m k).getD 0

/-- Go's `v, ok := m[k]`. -/
def GoMap.lookup (m : GoMap) (k : Nat) : Nat × Bool := ((m k).getD 0, (m k).isSome)

/-- Go's `m[k] = v`. -/
def GoMap.set (m : GoMap) (k v : Nat) : GoMap := fun j => if j = k then some v else m j

/-- The map objects of the running program, and the next unused address. -/
structure Heap where
  maps : MapRef → GoMap
  next : MapRef

/-- A heap on which nothing has been allocated yet. -/
def Heap.init : Heap := { maps := fun _ => GoMap.empty, next := 0 }

/-- Replace the contents of the map object at address `r`. -/
def Heap.store (h : Heap) (r : MapRef) (m : GoMap) : Heap :=
  { h with maps := fun a => if a = r then m else h.maps a }

/-- Evaluate `make(map[uint]uint)`: a fresh, empty map object and its address. -/
def Heap.make (h : Heap) : MapRef × Heap :=
  (h.next, { maps := fun a => if a = h.next then GoMap.empty else h.maps a, next := h.next + 1 })

/-! ## The store -/

/-- The struct `Service`; the field `stats` holds a map, that is, a reference to a map object. -/
structure Service where
  stats : MapRef
deriving DecidableEq

/-- Go source: `func NewService() *Service`. -/
def NewService (h : Heap) : Service × Heap :=
  let (r, h1) := h.make
  ({ stats := r }, h1)

/-- Go source: `func (s *Service) AddVote(candidateID uint)`. -/
def AddVote (s : Service) (candidateID : Nat) (h : Heap) : Heap :=
  -- if _, ok := s.stats[candidateID]; !ok { s.stats[candidateID] = 0 }
  let h1 :=
    if ((h.maps s.stats).lookup candidateID).2 = false then
      h.store s.stats ((h.maps s.stats).set candidateID 0)
    else h
  -- s.stats[candidateID]++
  h1.store s.stats
    ((h1.maps s.stats).set candidateID (((h1.maps s.stats).index candidateID + 1) % uintMod))

/-- Go source: `func (s *Service) GetStats() map[uint]uint`, whose body is `return s.stats`. -/
def GetStats (s : Service) : MapRef := s.stats

/-- The text produced by `fmt.Errorf("no data for candidate with id %d", candidateID)`. -/
def noDataError (candidateID : Nat) : String :=
  "no data for candidate with id " ++ Nat.repr candidateID

/-- Go source: `func (s *Service) GetStatsForCandidate(candidateID uint) (uint, error)`;
the error is `none` for Go's `nil`. -/
def GetStatsForCandidate (s : Service) (candidateID : Nat) (h : Heap) : Nat × Option String :=
  let (votes, ok) := (h.maps s.stats).lookup candidateID
  if ok then (votes, none)
  else (0, some (noDataError candidateID))

/-- A finite sequence of `AddVote` calls on the same store, in order. -/
def addVotes (s : Service) : List Nat → Heap → Heap
  | [], h => h
  | id :: rest, h => addVotes s rest (AddVote s id h)

/-- The store right after `NewService()`, followed by the given `AddVote` calls. -/
def afterVotes (h0 : Heap) (ids : List Nat) : Service × Heap :=
  let (s, h1) := NewService h0
  (s, addVotes s ids h1)

/-! ## Library functions the handlers call -/

namespace strconv

/-- The two error kinds `strconv.ParseUint` reports on its input, and the two it reports on
its other arguments. -/
inductive NumError where
  | ErrSyntax
  | ErrRange
  | ErrBase
  | ErrBitSize
deriving DecidableEq, Repr

/-- Largest `uint64`. -/
def maxUint64 : Nat := 2 ^ 64 - 1

/-- Go's `lower(c)`, that is `c | ('x' - 'X')`. -/
def lower (c : Nat) : Nat := c ||| 32

/-- The digit value `ParseUint` assigns to one input byte, `none` where its `switch` reaches
the `default` case. -/
def digitVal (c : Nat) : Option Nat :=
  if 48 ≤ c ∧ c ≤ 57 then some (c - 48)
  else if 97 ≤ lower c ∧ lower c ≤ 122 then some (lower c - 97 + 10)
  else none

/-- The `for _, c := range []byte(s)` loop of `strconv.ParseUint`, with `n` a `uint64`.
The input is walked code point by code point rather than byte by byte: an ASCII character is
its own single byte, and a code point above 127 is rejected by `digitVal` exactly as the first
byte of its encoding is. -/
def parseLoop (base cutoff maxVal : Nat) : List Char → Nat → Nat × Option NumError
  | [], n => (n, none)
  | c :: cs, n =>
    match digitVal c.toNat with
    | none => (0, some NumError.ErrSyntax)
    | some d =>
      if d ≥ base then (0, some NumError.ErrSyntax)
      else if n ≥ cutoff then (maxVal, some NumError.ErrRange)
      else
        let n0 := (n * base) % 2 ^ 64
        let n1 := (n0 + d) % 2 ^ 64
        if n1 < n0 ∨ n1 > maxVal then (maxVal, some NumError.ErrRange)
        else parseLoop base cutoff maxVal cs n1

/-- Go standard library: `func ParseUint(s string, base int, bitSize int) (uint64, error)`, for an
explicit base `2 ≤ base ≤ 36`.  (Go also takes `base = 0`, meaning that the base is read off a
prefix of `s`; this program always passes 10 and that mode is left out: it is answered with the
base error here.) -/
def ParseUint (s : String) (base bitSize : Nat) : Nat × Option NumError :=
  if s = "" then (0, some NumError.ErrSyntax)
  else if ¬ (2 ≤ base ∧ base ≤ 36) then (0, some NumError.ErrBase)
  else
    let bitSize := if bitSize = 0 then 64 else bitSize
    if bitSize > 64 then (0, some NumError.ErrBitSize)
    else
      let cutoff := maxUint64 / base + 1
      -- uint64(1)<<uint(bitSize) - 1
      let maxVal := (2 ^ bitSize % 2 ^ 64 + 2 ^ 64 - 1) % 2 ^ 64
      parseLoop base cutoff maxVal s.data 0

end strconv

/-- The anonymous request struct of `VoteHandler`. -/
structure VoteRequest where
  CandidateID : Nat
  Passport : String
deriving DecidableEq

/-- The anonymous response struct of `StatsHandler`. -/
structure StatsResponse where
  CandidateID : Nat
  Votes : Nat
deriving DecidableEq

/-- Go standard library: `json.Marshal` on a `StatsResponse`. The two `uint` fields are written in
declaration order under their tags, as decimal numerals and without white space; the error is
always `nil` for such a struct. -/
def marshalStatsResponse (v : StatsResponse) : String × Option String :=
  ("\x7b\"candidate_id\":" ++ Nat.repr v.CandidateID ++ ",\"votes\":" ++ Nat.repr v.Votes ++ "\x7d",
    none)

/-- The two uses of `encoding/json` whose results the handlers only pass on, taken as
parameters. `Unmarshal raw req` stands for `json.Unmarshal(raw, &req)`: it gives the struct as the
call leaves it and the error it returns (a key that is absent from the document leaves its field
as it was). `MarshalStats` stands for `json.Marshal` on a `map[uint]uint`. -/
structure JSONCodec where
  Unmarshal : String → VoteRequest → VoteRequest × Option String
  MarshalStats : GoMap → String × Option String

/-! ## Requests and responses -/

/-- Go standard library: `url.Values`, a map from a key to the values given for it. -/
abbrev Values := String → List String

/-- Go standard library: `func (v Values) Get(key string) string`. -/
def Values.Get (v : Values) (key : String) : String :=
  match v key with
  | [] => ""
  | x :: _ => x

/-- What a handler reads of an `*http.Request`: the method, what `io.ReadAll(r.Body)` returns,
and what `r.URL.Query()` returns. -/
structure Request where
  Method : String
  Body : String × Option String
  Query : Values

/-- An `http.ResponseWriter` as the handler sees it: the status code (200 until a header is
written), the header map, the bytes handed to `Write`, and the error `Write` answers with
(`none` on a healthy connection). -/
structure ResponseWriter where
  wroteHeader : Bool
  Code : Nat
  Header : List (String × String)
  Body : String
  writeErr : Option String

/-- A response on which nothing has been written yet. -/
def ResponseWriter.fresh (writeErr : Option String) : ResponseWriter :=
  { wroteHeader := false, Code := 200, Header := [], Body := "", writeErr := writeErr }

/-- Go standard library: `WriteHeader(statusCode)`; only the first call sets the status. -/
def ResponseWriter.WriteHeader (w : ResponseWriter) (statusCode : Nat) : ResponseWriter :=
  if w.wroteHeader then w else { w with wroteHeader := true, Code := statusCode }

/-- Go standard library: `Header().Set(key, value)`. -/
def ResponseWriter.HeaderSet (w : ResponseWriter) (key value : String) : ResponseWriter :=
  { w with Header := (key, value) :: w.Header.filter (fun kv => kv.1 ≠ key) }

/-- Go standard library: `Write(data)`, which first writes the header with status 200 if none
was written. -/
def ResponseWriter.Write (w : ResponseWriter) (data : String) : ResponseWriter × Option String :=
  let w1 := w.WriteHeader 200
  ({ w1 with Body := w1.Body ++ data }, w1.writeErr)

def StatusOK : Nat := 200
def StatusBadRequest : Nat := 400
def StatusNotFound : Nat := 404
def StatusMethodNotAllowed : Nat := 405
def StatusInternalServerError : Nat := 500
def MethodPost : String := "POST"

/-- What a handler call leaves behind: the response, the heap, and the lines it printed. -/
structure Outcome where
  w : ResponseWriter
  heap : Heap
  stdout : List String

/-- The line printed by `fmt.Printf("Failed to write response body: %v\n", err)`. -/
def writeFailedLine (err : String) : String :=
  "Failed to write response body: " ++ err ++ "\n"

/-! ## The handlers -/

/-- Go source: `func (s *Service) VoteHandler(w http.ResponseWriter, r *http.Request)`. -/
def VoteHandler (json : JSONCodec) (s : Service) (w : ResponseWriter) (r : Request)
    (h : Heap) : Outcome :=
  if r.Method ≠ MethodPost then
    { w := w.WriteHeader StatusMethodNotAllowed, heap := h, stdout := [] }
  else
    let req : VoteRequest := { CandidateID := 0, Passport := "" }
    let (raw, err) := r.Body
    if err ≠ none then
      { w := w.WriteHeader StatusInternalServerError, heap := h, stdout := [] }
    else
      let (req, err) := json.Unmarshal raw req
      if err ≠ none ∨ req.CandidateID = 0 then
        { w := w.WriteHeader StatusBadRequest, heap := h, stdout := [] }
      else
        let h1 := AddVote s req.CandidateID h
        { w := w.WriteHeader StatusOK, heap := h1, stdout := [] }

/-- The tail shared by both branches of `StatsHandler`: set the content type, write the body,
and print a line if the write failed. -/
def writeJSON (w : ResponseWriter) (jsonData : String) (h : Heap) : Outcome :=
  let w1 := w.HeaderSet "Content-Type" "application/json"
  let (w2, err) := w1.Write jsonData
  match err with
  | some e => { w := w2, heap := h, stdout := [writeFailedLine e] }
  | none => { w := w2, heap := h, stdout := [] }

/-- Go source: `func (s *Service) StatsHandler(w http.ResponseWriter, r *http.Request)`. -/
def StatsHandler (json : JSONCodec) (s : Service) (w : ResponseWriter) (r : Request)
    (h : Heap) : Outcome :=
  let candidateIDStr := r.Query.Get "candidate_id"
  if candidateIDStr = "" then
    let stats := GetStats s
    let (jsonData, err) := json.MarshalStats (h.maps stats)
    if err ≠ none then
      { w := w.WriteHeader StatusInternalServerError, heap := h, stdout := [] }
    else writeJSON w jsonData h
  else
    let (candidateID, err) := strconv.ParseUint candidateIDStr 10 32
    if err ≠ none then
      { w := w.WriteHeader StatusBadRequest, heap := h, stdout := [] }
    else
      -- uint(candidateID)
      let (votes, err) := GetStatsForCandidate s (candidateID % uintMod) h
      if err ≠ none then
        { w := w.WriteHeader StatusNotFound, heap := h, stdout := [] }
      else
        let response : StatsResponse := { CandidateID := candidateID % uintMod, Votes := votes }
        let (jsonData, err) := marshalStatsResponse response
        if err ≠ none then
          { w := w.WriteHeader StatusInternalServerError, heap := h, stdout := [] }
        else writeJSON w jsonData h

/-! ## Reading a decimal numeral, as the interface describes it -/

/-- Whether a character is one of `0` to `9`. -/
def isDecimalDigit (c : Char) : Bool := decide (48 ≤ c.toNat ∧ c.toNat ≤ 57)

/-- The number written by a list of decimal digits after the digits already read as `acc`;
`none` if some character is not a decimal digit. No bound is put on the value. -/
def decimalFrom (acc : Nat) : List Char → Option Nat
  | [] => some acc
  | c :: cs => if isDecimalDigit c then decimalFrom (acc * 10 + (c.toNat - 48)) cs else none

/-- The value of a base-10 unsigned numeral: at least one character, all of them decimal
digits. -/
def decimalValue (s : String) : Option Nat :=
  if s = "" then none else decimalFrom 0 s.data

/-- A text parses as a base-10 unsigned integer in the range `0 .. 2 ^ 32 - 1`, with value `n`. -/
def ParsesAsUint32 (s : String) (n : Nat) : Prop :=
  decimalValue s = some n ∧ n ≤ 2 ^ 32 - 1

/-- A query in which `candidate_id` has the single value `v` and no other key is given. -/
def queryCandidate (v : String) : Values :=
  fun key => if key = "candidate_id" then [v] else []

/-- A codec for the worked examples: it decodes the two documents used there as
`encoding/json` does and reports every other body as malformed. -/
def sampleCodec : JSONCodec :=
  { Unmarshal := fun raw req =>
      if raw = "\x7b\"candidate_id\": 5\x7d" then ({ req with CandidateID := 5 }, none)
      else if raw = "\x7b\"candidate_id\": 0\x7d" then ({ req with CandidateID := 0 }, none)
      else if raw = "\x7b\"candidate_id\": 4294967296\x7d" then
        ({ req with CandidateID := 4294967296 }, none)
      else (req, some "invalid character"),
    MarshalStats := fun _ => ("", some "unsupported") }

end VoteService

/-! # Theorems -/

namespace VoteService

/-! ## The store -/

/-- The modulus of `uint` arithmetic, spelled out. -/
theorem uintMod_eq : uintMod = 2 ^ 64 := rfl

/-- One `AddVote` rewrites the entry of its candidate in the map of the store and leaves every
other entry of that map as it was. -/
theorem AddVote_maps_self (s : Service) (id : Nat) (h : Heap) (k : Nat) :
    (AddVote s id h).maps s.stats k =
      if k = id then some (((h.maps s.stats).index id + 1) % uintMod) else h.maps s.stats k := by
  unfold AddVote
  by_cases hk : k = id
  · subst hk
    cases hm : h.maps s.stats k <;>
      simp [GoMap.lookup, GoMap.index, GoMap.set, Heap.store, hm]
  · cases hm : h.maps s.stats id <;>
      simp [GoMap.lookup, GoMap.index, GoMap.set, Heap.store, hm, hk]

/-- No other map object is touched by `AddVote`. -/
theorem AddVote_maps_other (s : Service) (id : Nat) (h : Heap) (r : MapRef)
    (hr : r ≠ s.stats) : (AddVote s id h).maps r = h.maps r := by
  unfold AddVote
  cases hm : h.maps s.stats id <;>
    simp [GoMap.lookup, Heap.store, hm, hr]

/-- The map of the store after a sequence of `AddVote` calls, entry by entry: an id that was
voted for holds its former count plus its number of occurrences, reduced modulo `uintMod`; any
other entry is as before. -/
theorem addVotes_maps_self (s : Service) (ids : List Nat) (h : Heap) (k : Nat) :
    (addVotes s ids h).maps s.stats k =
      if k ∈ ids then some (((h.maps s.stats).index k + ids.count k) % uintMod)
      else h.maps s.stats k := by
  induction ids generalizing h with
  | nil => simp [addVotes]
  | cons id rest ih =>
    rw [addVotes, ih (AddVote s id h)]
    have hstep := AddVote_maps_self s id h
    by_cases hk : k = id
    · subst hk
      have hidx : ((AddVote s k h).maps s.stats).index k
          = ((h.maps s.stats).index k + 1) % uintMod := by
        simp [GoMap.index, hstep]
      by_cases hin : k ∈ rest
      · simp only [hin, if_true, List.mem_cons, or_true, hidx, List.count_cons_self]
        congr 1
        rw [Nat.mod_add_mod]
        congr 1
        omega
      · simp [hin, hstep, List.count_eq_zero_of_not_mem hin]
    · have hidx : ((AddVote s id h).maps s.stats).index k = (h.maps s.stats).index k := by
        simp [GoMap.index, hstep, hk]
      have hcount : (id :: rest).count k = rest.count k := by
        simp [List.count_cons, Ne.symm hk]
      simp [hidx, hcount, hstep, hk]

/-- A sequence of `AddVote` calls does not touch any other map object. -/
theorem addVotes_maps_other (s : Service) (ids : List Nat) (h : Heap) (r : MapRef)
    (hr : r ≠ s.stats) : (addVotes s ids h).maps r = h.maps r := by
  induction ids generalizing h with
  | nil => rfl
  | cons id rest ih => rw [addVotes, ih, AddVote_maps_other s id h r hr]

/-- The map of a store made by `NewService()` and then voted on: exactly the ids voted for are
keys, each with its number of occurrences modulo `uintMod`. -/
theorem afterVotes_maps (h0 : Heap) (ids : List Nat) (k : Nat) :
    (afterVotes h0 ids).2.maps (afterVotes h0 ids).1.stats k =
      if k ∈ ids then some (ids.count k % uintMod) else none := by
  simp only [afterVotes, NewService, Heap.make]
  rw [addVotes_maps_self]
  simp [GoMap.index, GoMap.empty]

/-- The same map, reached through the reference that `GetStats()` returns. -/
theorem GetStats_afterVotes_maps (h0 : Heap) (ids : List Nat) (k : Nat) :
    (afterVotes h0 ids).2.maps (GetStats (afterVotes h0 ids).1) k =
      if k ∈ ids then some (ids.count k % uintMod) else none :=
  afterVotes_maps h0 ids k

/-- Voting `n` times for one id is the sequence `List.replicate n id`. -/
theorem count_replicate_self (n id : Nat) : (List.replicate n id).count id = n := by
  simp

/-- What `GetStatsForCandidate` returns on a store made by `NewService()` and then voted on. -/
theorem GetStatsForCandidate_afterVotes (h0 : Heap) (ids : List Nat) (id : Nat) :
    GetStatsForCandidate (afterVotes h0 ids).1 id (afterVotes h0 ids).2 =
      if id ∈ ids then (ids.count id % uintMod, none) else (0, some (noDataError id)) := by
  have hm := afterVotes_maps h0 ids id
  unfold GetStatsForCandidate GoMap.lookup
  by_cases hin : id ∈ ids <;> simp [hm, hin]

/-- Voting `uintMod` times for candidate 1 on a new store: candidate 1 is a key of the map and
the count stored under it is 0. -/
theorem wrapped_store_entry :
    (afterVotes Heap.init (List.replicate (2 ^ 64) 1)).2.maps
      (afterVotes Heap.init (List.replicate (2 ^ 64) 1)).1.stats 1 = some 0 := by
  rw [afterVotes_maps]
  have hin : (1 : Nat) ∈ List.replicate (2 ^ 64) 1 := by
    rw [List.mem_replicate]; exact ⟨by norm_num, rfl⟩
  rw [if_pos hin, count_replicate_self, uintMod_eq, Nat.mod_self]

/-- The same entry, read through the mapping that `GetStats()` returns. -/
theorem GetStats_wrapped_entry :
    (afterVotes Heap.init (List.replicate (2 ^ 64) 1)).2.maps
      (GetStats (afterVotes Heap.init (List.replicate (2 ^ 64) 1)).1) 1 = some 0 := by
  rw [GetStats_afterVotes_maps]
  have hin : (1 : Nat) ∈ List.replicate (2 ^ 64) 1 := by
    rw [List.mem_replicate]; exact ⟨by norm_num, rfl⟩
  rw [if_pos hin, count_replicate_self, uintMod_eq, Nat.mod_self]

/-- C1, as stated, fails: after `2 ^ 64` calls `AddVote(1)` on a new store, candidate 1 occurs
`2 ^ 64` times in the sequence, yet `GetStatsForCandidate(1)` returns `(0, nil)`. -/
theorem C1_counterexample :
    (1 : Nat) ∈ List.replicate (2 ^ 64) 1 ∧
    (List.replicate (2 ^ 64) 1).count 1 = 2 ^ 64 ∧
    GetStatsForCandidate (afterVotes Heap.init (List.replicate (2 ^ 64) 1)).1 1
        (afterVotes Heap.init (List.replicate (2 ^ 64) 1)).2 = (0, none) ∧
    GetStatsForCandidate (afterVotes Heap.init (List.replicate (2 ^ 64) 1)).1 1
        (afterVotes Heap.init (List.replicate (2 ^ 64) 1)).2
      ≠ ((List.replicate (2 ^ 64) 1).count 1, none) := by
  have hin : (1 : Nat) ∈ List.replicate (2 ^ 64) 1 := by
    rw [List.mem_replicate]; exact ⟨by norm_num, rfl⟩
  have hval : GetStatsForCandidate (afterVotes Heap.init (List.replicate (2 ^ 64) 1)).1 1
      (afterVotes Heap.init (List.replicate (2 ^ 64) 1)).2 = (0, none) := by
    rw [GetStatsForCandidate_afterVotes, if_pos hin, count_replicate_self, uintMod_eq,
      Nat.mod_self]
  refine ⟨hin, count_replicate_self _ _, hval, ?_⟩
  rw [hval, count_replicate_self]
  intro hcontra
  have h0 : (0 : Nat) = 2 ^ 64 := congrArg Prod.fst hcontra
  norm_num at h0

/-- C1, amended: starting from `NewService()`, after any finite sequence of `AddVote` calls in
which `id` occurs, `GetStatsForCandidate(id)` returns `(n % 2 ^ 64, nil)` where `n` is the number
of occurrences of `id`; this is `(n, nil)` whenever `n < 2 ^ 64`. -/
theorem C1_GetStatsForCandidate_counts (h0 : Heap) (ids : List Nat) (id : Nat) (hid : id ∈ ids) :
    GetStatsForCandidate (afterVotes h0 ids).1 id (afterVotes h0 ids).2
        = (ids.count id % 2 ^ 64, none) ∧
    (ids.count id < 2 ^ 64 →
      GetStatsForCandidate (afterVotes h0 ids).1 id (afterVotes h0 ids).2
        = (ids.count id, none)) := by
  have hval := GetStatsForCandidate_afterVotes h0 ids id
  rw [if_pos hid, uintMod_eq] at hval
  refine ⟨by rw [hval], fun hlt => ?_⟩
  rw [hval, Nat.mod_eq_of_lt hlt]

/-- An instance of C1: three votes for candidate 3 among six votes. -/
theorem C1_GetStatsForCandidate_counts_witness :
    (3 : Nat) ∈ [1, 1, 2, 3, 3, 3] ∧
    GetStatsForCandidate (afterVotes Heap.init [1, 1, 2, 3, 3, 3]).1 3
        (afterVotes Heap.init [1, 1, 2, 3, 3, 3]).2 = (3, none) :=
  ⟨by decide,
   (C1_GetStatsForCandidate_counts Heap.init [1, 1, 2, 3, 3, 3] 3 (by decide)).2 (by decide)⟩

/-- C2, as stated, fails: after `2 ^ 64` calls `AddVote(1)` on a new store, the mapping returned
by `GetStats()` holds 0 under key 1, not the `2 ^ 64` occurrences of candidate 1. -/
theorem C2_counterexample :
    (List.replicate (2 ^ 64) 1).count 1 = 2 ^ 64 ∧
    (afterVotes Heap.init (List.replicate (2 ^ 64) 1)).2.maps
        (GetStats (afterVotes Heap.init (List.replicate (2 ^ 64) 1)).1) 1 = some 0 ∧
    (afterVotes Heap.init (List.replicate (2 ^ 64) 1)).2.maps
        (GetStats (afterVotes Heap.init (List.replicate (2 ^ 64) 1)).1) 1
      ≠ some ((List.replicate (2 ^ 64) 1).count 1) := by
  have hentry := GetStats_wrapped_entry
  refine ⟨count_replicate_self _ _, hentry, ?_⟩
  rw [hentry, count_replicate_self]
  intro hcontra
  have h0 : (0 : Nat) = 2 ^ 64 := Option.some.inj hcontra
  norm_num at h0

/-- C2, amended: starting from `NewService()`, after any finite sequence of `AddVote` calls, the
mapping returned by `GetStats()` has as keys exactly the ids occurring in the sequence, and the
value at each key is the number of occurrences of that id modulo `2 ^ 64` (the number itself
when it is below `2 ^ 64`). -/
theorem C2_GetStats_tally (h0 : Heap) (ids : List Nat) (k : Nat) :
    (((afterVotes h0 ids).2.maps (GetStats (afterVotes h0 ids).1) k).isSome = true ↔ k ∈ ids) ∧
    (k ∈ ids →
      (afterVotes h0 ids).2.maps (GetStats (afterVotes h0 ids).1) k
        = some (ids.count k % 2 ^ 64)) ∧
    (k ∈ ids → ids.count k < 2 ^ 64 →
      (afterVotes h0 ids).2.maps (GetStats (afterVotes h0 ids).1) k = some (ids.count k)) ∧
    (k ∉ ids → (afterVotes h0 ids).2.maps (GetStats (afterVotes h0 ids).1) k = none) := by
  have hm := afterVotes_maps h0 ids k
  rw [uintMod_eq] at hm
  unfold GetStats
  by_cases hin : k ∈ ids
  · rw [if_pos hin] at hm
    refine ⟨by simp [hm, hin], fun _ => by rw [hm], fun _ hlt => ?_, fun hnot => absurd hin hnot⟩
    rw [hm, Nat.mod_eq_of_lt hlt]
  · rw [if_neg hin] at hm
    exact ⟨by simp [hm, hin], fun h => absurd h hin, fun h => absurd h hin, fun _ => hm⟩

/-- An instance of C2: candidate 3 after the votes 1, 1, 2, 3, 3, 3 is a key with value 3, and
candidate 4 is not a key. -/
theorem C2_GetStats_tally_witness :
    (afterVotes Heap.init [1, 1, 2, 3, 3, 3]).2.maps
        (GetStats (afterVotes Heap.init [1, 1, 2, 3, 3, 3]).1) 3 = some 3 ∧
    (afterVotes Heap.init [1, 1, 2, 3, 3, 3]).2.maps
        (GetStats (afterVotes Heap.init [1, 1, 2, 3, 3, 3]).1) 4 = none :=
  ⟨(C2_GetStats_tally Heap.init [1, 1, 2, 3, 3, 3] 3).2.2.1 (by decide) (by decide),
   (C2_GetStats_tally Heap.init [1, 1, 2, 3, 3, 3] 4).2.2.2 (by decide)⟩

/-- The worked example of C2: votes for 1, 1, 2, 3, 3, 3 give the mapping `{1:2, 2:1, 3:3}` and
no other key. -/
theorem GetStats_example (h0 : Heap) (k : Nat) :
    (afterVotes h0 [1, 1, 2, 3, 3, 3]).2.maps (GetStats (afterVotes h0 [1, 1, 2, 3, 3, 3]).1) k =
      if k = 1 then some 2 else if k = 2 then some 1 else if k = 3 then some 3 else none := by
  unfold GetStats
  rw [afterVotes_maps, uintMod_eq]
  by_cases h1 : k = 1
  · subst h1; decide
  · by_cases h2 : k = 2
    · subst h2; decide
    · by_cases h3 : k = 3
      · subst h3; decide
      · simp [h1, h2, h3]

/-- C3: starting from `NewService()`, after any finite sequence of `AddVote` calls and for every
candidate id, `GetStatsForCandidate(id)` returns a non-nil error if and only if `id` never occurs
in the sequence, and in that case the returned count is 0 (and the error is the "no data"
error). -/
theorem C3_GetStatsForCandidate_notFound (h0 : Heap) (ids : List Nat) (id : Nat) :
    ((GetStatsForCandidate (afterVotes h0 ids).1 id (afterVotes h0 ids).2).2 ≠ none ↔ id ∉ ids) ∧
    ((GetStatsForCandidate (afterVotes h0 ids).1 id (afterVotes h0 ids).2).2 ≠ none →
      GetStatsForCandidate (afterVotes h0 ids).1 id (afterVotes h0 ids).2
        = (0, some (noDataError id))) := by
  have hval := GetStatsForCandidate_afterVotes h0 ids id
  by_cases hin : id ∈ ids
  · rw [if_pos hin] at hval
    simp [hval, hin]
  · rw [if_neg hin] at hval
    simp [hval, hin]

/-- An instance of C3: candidate 999 on a store whose only vote is for candidate 5. -/
theorem C3_GetStatsForCandidate_notFound_witness :
    (999 : Nat) ∉ [5] ∧
    GetStatsForCandidate (afterVotes Heap.init [5]).1 999 (afterVotes Heap.init [5]).2
      = (0, some (noDataError 999)) :=
  ⟨by decide,
   (C3_GetStatsForCandidate_notFound Heap.init [5] 999).2
     ((C3_GetStatsForCandidate_notFound Heap.init [5] 999).1.mpr (by decide))⟩

/-- C4, as stated, fails: the state reached from `NewService()` by `2 ^ 64` calls `AddVote(1)`
has candidate 1 as a key of the stats map with count 0. -/
theorem C4_counterexample :
    ∃ v, (afterVotes Heap.init (List.replicate (2 ^ 64) 1)).2.maps
        (afterVotes Heap.init (List.replicate (2 ^ 64) 1)).1.stats 1 = some v ∧ ¬ 1 ≤ v :=
  ⟨0, wrapped_store_entry, by decide⟩

/-- C4, amended: in every state reachable from `NewService()` by a finite sequence of `AddVote`
calls, a candidate id present as a key of the stats map holds its number of occurrences modulo
`2 ^ 64`; that count is at least 1 whenever the number of occurrences is not a multiple of
`2 ^ 64`, in particular whenever fewer than `2 ^ 64` votes were cast. -/
theorem C4_present_count_pos (h0 : Heap) (ids : List Nat) (k v : Nat)
    (hv : (afterVotes h0 ids).2.maps (afterVotes h0 ids).1.stats k = some v) :
    k ∈ ids ∧ v = ids.count k % 2 ^ 64 ∧
    (ids.count k % 2 ^ 64 ≠ 0 → 1 ≤ v) ∧ (ids.length < 2 ^ 64 → 1 ≤ v) := by
  have hm := afterVotes_maps h0 ids k
  rw [uintMod_eq] at hm
  by_cases hin : k ∈ ids
  · rw [if_pos hin, hv] at hm
    have hveq : v = ids.count k % 2 ^ 64 := Option.some.inj hm
    have hpos : 0 < ids.count k := List.count_pos_iff.mpr hin
    have hle : ids.count k ≤ ids.length := List.count_le_length _ _
    refine ⟨hin, hveq, fun hne => ?_, fun hlt => ?_⟩
    · rw [hveq]; exact Nat.pos_of_ne_zero hne
    · rw [hveq, Nat.mod_eq_of_lt (Nat.lt_of_le_of_lt hle hlt)]
      exact hpos
  · rw [if_neg hin, hv] at hm
    cases hm

/-- An instance of C4: candidate 1 after the votes 1, 1, 2. -/
theorem C4_present_count_pos_witness :
    (afterVotes Heap.init [1, 1, 2]).2.maps (afterVotes Heap.init [1, 1, 2]).1.stats 1 = some 2 ∧
    (1 : Nat) ≤ 2 :=
  ⟨by decide, (C4_present_count_pos Heap.init [1, 1, 2] 1 2 (by decide)).2.2.2 (by decide)⟩

/-! ## `strconv.ParseUint` against the numeral it reads -/

/-- A decimal digit gets its own value from `digitVal`. -/
theorem digitVal_of_digit (c : Char) (hc : isDecimalDigit c = true) :
    strconv.digitVal c.toNat = some (c.toNat - 48) := by
  simp only [isDecimalDigit, decide_eq_true_eq] at hc
  simp [strconv.digitVal, hc]

/-- Any other character is either rejected by `digitVal` or given a value of at least 10. -/
theorem digitVal_of_not_digit (c : Char) (hc : isDecimalDigit c = false) :
    strconv.digitVal c.toNat = none ∨ ∃ d, strconv.digitVal c.toNat = some d ∧ 10 ≤ d := by
  simp only [isDecimalDigit, decide_eq_false_iff_not] at hc
  unfold strconv.digitVal
  rw [if_neg hc]
  by_cases hl : 97 ≤ strconv.lower c.toNat ∧ strconv.lower c.toNat ≤ 122
  · right
    rw [if_pos hl]
    exact ⟨_, rfl, by omega⟩
  · left
    rw [if_neg hl]

/-- Reading further digits never lowers the value read so far. -/
theorem decimalFrom_ge (cs : List Char) (acc v : Nat) (h : decimalFrom acc cs = some v) :
    acc ≤ v := by
  induction cs generalizing acc with
  | nil =>
    simp only [decimalFrom, Option.some.injEq] at h
    omega
  | cons c cs ih =>
    unfold decimalFrom at h
    by_cases hc : isDecimalDigit c = true
    · rw [if_pos hc] at h
      have := ih _ h
      omega
    · rw [if_neg hc] at h
      cases h

/-- The loop of `ParseUint` for base 10 and bit size 32, started at a value that fits: it ends
without error on `v` exactly when the remaining characters are all decimal digits and the number
read is `v`, with `v` at most `2 ^ 32 - 1`. -/
theorem parseLoop_eq_iff (cs : List Char) (n v : Nat) (hn : n ≤ 4294967295) :
    strconv.parseLoop 10 1844674407370955162 4294967295 cs n = (v, none) ↔
      decimalFrom n cs = some v ∧ v ≤ 4294967295 := by
  induction cs generalizing n with
  | nil =>
    simp only [strconv.parseLoop, decimalFrom, Prod.mk.injEq, and_true, Option.some.injEq]
    constructor
    · intro h; subst h; exact ⟨rfl, hn⟩
    · intro h; exact h.1
  | cons c cs ih =>
    unfold strconv.parseLoop decimalFrom
    by_cases hc : isDecimalDigit c = true
    · rw [digitVal_of_digit c hc, if_pos hc]
      have hd : c.toNat - 48 < 10 := by
        simp only [isDecimalDigit, decide_eq_true_eq] at hc
        omega
      have h0 : n * 10 % 2 ^ 64 = n * 10 := Nat.mod_eq_of_lt (by omega)
      have h1 : (n * 10 + (c.toNat - 48)) % 2 ^ 64 = n * 10 + (c.toNat - 48) :=
        Nat.mod_eq_of_lt (by omega)
      simp only [ge_iff_le, h0, h1]
      rw [if_neg (by omega), if_neg (by omega)]
      by_cases hbig : n * 10 + (c.toNat - 48) > 4294967295
      · rw [if_pos (Or.inr hbig)]
        constructor
        · intro h
          simp at h
        · rintro ⟨hv, hle⟩
          have := decimalFrom_ge cs _ v hv
          omega
      · rw [if_neg (by omega)]
        exact ih _ (by omega)
    · have hc2 : isDecimalDigit c = false := by simpa using hc
      rw [if_neg hc]
      constructor
      · intro h
        rcases digitVal_of_not_digit c hc2 with hnone | ⟨d, hd, hge⟩
        · rw [hnone] at h
          simp at h
        · rw [hd] at h
          simp only [ge_iff_le] at h
          rw [if_pos hge] at h
          simp at h
      · rintro ⟨h, _⟩
        cases h

/-- The refinement of `strconv.ParseUint(s, 10, 32)`: it returns `(n, nil)` exactly when `s`
parses as a base-10 unsigned integer in the range `0 .. 2 ^ 32 - 1` with value `n`. -/
theorem ParseUint_eq_iff (s : String) (n : Nat) :
    strconv.ParseUint s 10 32 = (n, none) ↔ ParsesAsUint32 s n := by
  unfold strconv.ParseUint ParsesAsUint32 decimalValue
  by_cases hs : s = ""
  · simp [hs]
  · rw [if_neg hs, if_neg hs, if_neg (by decide)]
    simp only [show ((32 : Nat) = 0) = False from by simp, if_false]
    rw [if_neg (by decide)]
    have hcut : strconv.maxUint64 / 10 + 1 = 1844674407370955162 := by decide
    have hmax : (2 ^ 32 % 2 ^ 64 + 2 ^ 64 - 1) % 2 ^ 64 = 4294967295 := by norm_num
    simp only [hcut, hmax]
    have := parseLoop_eq_iff s.data 0 n (by omega)
    simpa using this

/-- The error of `strconv.ParseUint(s, 10, 32)` is non-nil exactly when `s` does not parse as a
base-10 unsigned integer in the range `0 .. 2 ^ 32 - 1`. -/
theorem ParseUint_err_iff (s : String) :
    (strconv.ParseUint s 10 32).2 ≠ none ↔ ¬ ∃ n, ParsesAsUint32 s n := by
  constructor
  · rintro herr ⟨n, hn⟩
    rw [(ParseUint_eq_iff s n).mpr hn] at herr
    exact herr rfl
  · intro hno herr
    apply hno
    refine ⟨(strconv.ParseUint s 10 32).1, (ParseUint_eq_iff s _).mp ?_⟩
    rw [← herr]

/-! ## Writing a number in decimal and reading it back -/

/-- The digits already produced are carried along unchanged by `Nat.toDigitsCore`. -/
theorem toDigitsCore_append (f n : Nat) (ds : List Char) :
    Nat.toDigitsCore 10 f n ds = Nat.toDigitsCore 10 f n [] ++ ds := by
  induction f generalizing n ds with
  | zero => simp [Nat.toDigitsCore]
  | succ f ih =>
    simp only [Nat.toDigitsCore]
    by_cases hz : n / 10 = 0
    · simp [hz]
    · simp only [hz, if_false]
      rw [ih (n / 10) (Nat.digitChar (n % 10) :: ds), ih (n / 10) [Nat.digitChar (n % 10)]]
      simp

/-- Reading a list of characters in two parts. -/
theorem decimalFrom_append (l1 l2 : List Char) (acc a : Nat) (h : decimalFrom acc l1 = some a) :
    decimalFrom acc (l1 ++ l2) = decimalFrom a l2 := by
  induction l1 generalizing acc with
  | nil =>
    simp only [decimalFrom, Option.some.injEq] at h
    subst h
    rfl
  | cons c cs ih =>
    simp only [List.cons_append, decimalFrom] at h ⊢
    by_cases hc : isDecimalDigit c = true
    · rw [if_pos hc] at h ⊢
      exact ih _ h
    · rw [if_neg hc] at h
      cases h

/-- The character written for a digit below 10 is a decimal digit with that value. -/
theorem digitChar_decimal (k : Nat) (hk : k < 10) :
    isDecimalDigit (Nat.digitChar k) = true ∧ (Nat.digitChar k).toNat - 48 = k := by
  interval_cases k <;> decide

/-- With enough fuel, the digits written for `n` read back as `n`. -/
theorem decimalFrom_toDigitsCore (f n : Nat) (hf : n < f) :
    decimalFrom 0 (Nat.toDigitsCore 10 f n []) = some n := by
  induction f generalizing n with
  | zero => omega
  | succ f ih =>
    simp only [Nat.toDigitsCore]
    have hd := digitChar_decimal (n % 10) (Nat.mod_lt _ (by decide))
    by_cases hz : n / 10 = 0
    · simp only [hz, if_true, decimalFrom, hd.1, hd.2]
      congr 1
      omega
    · simp only [hz, if_false]
      rw [toDigitsCore_append, decimalFrom_append _ _ 0 (n / 10) (ih (n / 10) (by omega))]
      simp only [decimalFrom, hd.1, hd.2, if_true]
      congr 1
      omega

/-- The digits written for a number are never the empty list. -/
theorem toDigits_ne_nil (n : Nat) : Nat.toDigits 10 n ≠ [] := by
  unfold Nat.toDigits
  simp only [Nat.toDigitsCore]
  by_cases hz : n / 10 = 0
  · simp [hz]
  · simp only [hz, if_false]
    rw [toDigitsCore_append]
    simp

/-- The decimal text of a number reads back as that number. -/
theorem decimalValue_repr (n : Nat) : decimalValue (Nat.repr n) = some n := by
  have hdata : (Nat.repr n).data = Nat.toDigits 10 n := rfl
  have hne : Nat.repr n ≠ "" := by
    intro h
    have hnil : (Nat.repr n).data = [] := by rw [h]
    rw [hdata] at hnil
    exact toDigits_ne_nil n hnil
  unfold decimalValue
  rw [if_neg hne, hdata]
  exact decimalFrom_toDigitsCore (n + 1) n (by omega)

/-- The decimal text of any number below `2 ^ 32` is read back as that number by
`strconv.ParseUint` with bit size 32. -/
theorem ParseUint_repr (n : Nat) (hn : n < 2 ^ 32) :
    strconv.ParseUint (Nat.repr n) 10 32 = (n, none) :=
  (ParseUint_eq_iff _ n).mpr ⟨decimalValue_repr n, by omega⟩

/-- The decimal text of any number from `2 ^ 32` on is rejected by `strconv.ParseUint` with bit
size 32. -/
theorem ParseUint_repr_err (n : Nat) (hn : 2 ^ 32 ≤ n) :
    (strconv.ParseUint (Nat.repr n) 10 32).2 ≠ none := by
  rw [ParseUint_err_iff]
  rintro ⟨m, hm, hle⟩
  rw [decimalValue_repr] at hm
  cases hm
  omega

/-! ## The handlers -/

/-- The JSON text `StatsHandler` writes for a candidate and its count. -/
theorem marshalStatsResponse_eq (id votes : Nat) :
    marshalStatsResponse { CandidateID := id, Votes := votes } =
      ("\x7b\"candidate_id\":" ++ Nat.repr id ++ ",\"votes\":" ++ Nat.repr votes ++ "\x7d",
        none) := rfl

/-- On a fresh response, `writeJSON` leaves status 200, the JSON content type, the data as the
body, and the heap as it was. -/
theorem writeJSON_fresh (we : Option String) (data : String) (h : Heap) :
    (writeJSON (ResponseWriter.fresh we) data h).w.Code = 200 ∧
    (writeJSON (ResponseWriter.fresh we) data h).w.Body = data ∧
    (writeJSON (ResponseWriter.fresh we) data h).w.Header = [("Content-Type", "application/json")] ∧
    (writeJSON (ResponseWriter.fresh we) data h).heap = h := by
  cases we <;>
    simp [writeJSON, ResponseWriter.fresh, ResponseWriter.HeaderSet, ResponseWriter.Write,
      ResponseWriter.WriteHeader]

/-- What `StatsHandler` does when the query value is non-empty and `ParseUint` rejects it. -/
theorem StatsHandler_unparsable (json : JSONCodec) (s : Service) (w : ResponseWriter)
    (r : Request) (h : Heap) (hv : r.Query.Get "candidate_id" ≠ "")
    (herr : (strconv.ParseUint (r.Query.Get "candidate_id") 10 32).2 ≠ none) :
    StatsHandler json s w r h =
      { w := w.WriteHeader StatusBadRequest, heap := h, stdout := [] } := by
  unfold StatsHandler
  simp only [hv, if_false]
  rw [if_pos herr]

/-- What `StatsHandler` does when the query value is non-empty and `ParseUint` reads it as
`n`. -/
theorem StatsHandler_parsed (json : JSONCodec) (s : Service) (w : ResponseWriter)
    (r : Request) (h : Heap) (n : Nat) (hv : r.Query.Get "candidate_id" ≠ "")
    (hp : strconv.ParseUint (r.Query.Get "candidate_id") 10 32 = (n, none)) :
    StatsHandler json s w r h =
      match h.maps s.stats n with
      | none => { w := w.WriteHeader StatusNotFound, heap := h, stdout := [] }
      | some c => writeJSON w (marshalStatsResponse { CandidateID := n, Votes := c }).1 h := by
  have hn : n ≤ 2 ^ 32 - 1 := ((ParseUint_eq_iff _ n).mp hp).2
  have hmod : n % uintMod = n := by
    rw [uintMod_eq]
    exact Nat.mod_eq_of_lt (by omega)
  unfold StatsHandler
  simp only [hv, if_false, hp, hmod]
  cases hm : h.maps s.stats n <;>
    simp [GetStatsForCandidate, GoMap.lookup, hm, marshalStatsResponse]

/-- C5: for every store state and every POST request whose body is readable, if decoding the
body into the request struct fails, or leaves `candidate_id` as it was in the zero-valued struct
(the key is missing), or sets it to zero, then `VoteHandler` responds with status 400 and the
heap, hence the tally, is unchanged. -/
theorem C5_VoteHandler_bad_request (json : JSONCodec) (s : Service) (we : Option String)
    (r : Request) (h : Heap) (hm : r.Method = MethodPost) (hb : r.Body.2 = none)
    (hbad :
      (json.Unmarshal r.Body.1 { CandidateID := 0, Passport := "" }).2 ≠ none ∨
      (json.Unmarshal r.Body.1 { CandidateID := 0, Passport := "" }).1.CandidateID
        = ({ CandidateID := 0, Passport := "" } : VoteRequest).CandidateID ∨
      (json.Unmarshal r.Body.1 { CandidateID := 0, Passport := "" }).1.CandidateID = 0) :
    (VoteHandler json s (ResponseWriter.fresh we) r h).w.Code = 400 ∧
    (VoteHandler json s (ResponseWriter.fresh we) r h).heap = h ∧
    GetStatsForCandidate s 0 (VoteHandler json s (ResponseWriter.fresh we) r h).heap
      = GetStatsForCandidate s 0 h := by
  have hbad2 : (json.Unmarshal r.Body.1 { CandidateID := 0, Passport := "" }).2 ≠ none ∨
      (json.Unmarshal r.Body.1 { CandidateID := 0, Passport := "" }).1.CandidateID = 0 := by
    rcases hbad with h1 | h2 | h3
    · exact Or.inl h1
    · exact Or.inr h2
    · exact Or.inr h3
  have hout : VoteHandler json s (ResponseWriter.fresh we) r h =
      { w := (ResponseWriter.fresh we).WriteHeader StatusBadRequest, heap := h, stdout := [] } := by
    unfold VoteHandler
    simp only [hm, ne_eq, not_true_eq_false, if_false, hb]
    rw [if_pos hbad2]
  rw [hout]
  exact ⟨rfl, rfl, rfl⟩

/-- An instance of C5: the body `not-json`. -/
theorem C5_VoteHandler_bad_request_witness :
    (VoteHandler sampleCodec (afterVotes Heap.init [5]).1 (ResponseWriter.fresh none)
        { Method := "POST", Body := ("not-json", none), Query := fun _ => [] }
        (afterVotes Heap.init [5]).2).w.Code = 400 ∧
    (VoteHandler sampleCodec (afterVotes Heap.init [5]).1 (ResponseWriter.fresh none)
        { Method := "POST", Body := ("not-json", none), Query := fun _ => [] }
        (afterVotes Heap.init [5]).2).heap = (afterVotes Heap.init [5]).2 :=
  have hthm := C5_VoteHandler_bad_request sampleCodec (afterVotes Heap.init [5]).1 none
    { Method := "POST", Body := ("not-json", none), Query := fun _ => [] }
    (afterVotes Heap.init [5]).2 (by decide) (by decide) (Or.inl (by decide))
  ⟨hthm.1, hthm.2.1⟩

/-- C6: for every store state and every request whose method is not POST, whatever its body,
`VoteHandler` responds with status 405 and the heap, hence the tally, is unchanged. -/
theorem C6_VoteHandler_method_not_allowed (json : JSONCodec) (s : Service) (we : Option String)
    (r : Request) (h : Heap) (hm : r.Method ≠ MethodPost) :
    (VoteHandler json s (ResponseWriter.fresh we) r h).w.Code = 405 ∧
    (VoteHandler json s (ResponseWriter.fresh we) r h).heap = h := by
  unfold VoteHandler
  rw [if_pos hm]
  exact ⟨rfl, rfl⟩

/-- An instance of C6: a GET request whose body would be a valid vote. -/
theorem C6_VoteHandler_method_not_allowed_witness :
    (VoteHandler sampleCodec (afterVotes Heap.init []).1 (ResponseWriter.fresh none)
        { Method := "GET", Body := ("\x7b\"candidate_id\": 5\x7d", none), Query := fun _ => [] }
        (afterVotes Heap.init []).2).w.Code = 405 ∧
    (VoteHandler sampleCodec (afterVotes Heap.init []).1 (ResponseWriter.fresh none)
        { Method := "GET", Body := ("\x7b\"candidate_id\": 5\x7d", none), Query := fun _ => [] }
        (afterVotes Heap.init []).2).heap = (afterVotes Heap.init []).2 :=
  C6_VoteHandler_method_not_allowed sampleCodec (afterVotes Heap.init []).1 none
    { Method := "GET", Body := ("\x7b\"candidate_id\": 5\x7d", none), Query := fun _ => [] }
    (afterVotes Heap.init []).2 (by decide)

/-- The decimal text of a number is not the empty string. -/
theorem repr_ne_empty (n : Nat) : Nat.repr n ≠ "" := by
  intro h
  have hval := decimalValue_repr n
  rw [h] at hval
  simp [decimalValue] at hval

/-- What `VoteHandler` does on a POST request with a readable body that decodes without error to a
non-zero candidate id: one `AddVote` for that id and status 200. -/
theorem VoteHandler_accepts (json : JSONCodec) (s : Service) (w : ResponseWriter) (r : Request)
    (h : Heap) (hm : r.Method = MethodPost) (hb : r.Body.2 = none)
    (herr : (json.Unmarshal r.Body.1 { CandidateID := 0, Passport := "" }).2 = none)
    (hpos : (json.Unmarshal r.Body.1 { CandidateID := 0, Passport := "" }).1.CandidateID ≠ 0) :
    VoteHandler json s w r h =
      { w := w.WriteHeader StatusOK,
        heap := AddVote s
          (json.Unmarshal r.Body.1 { CandidateID := 0, Passport := "" }).1.CandidateID h,
        stdout := [] } := by
  unfold VoteHandler
  simp only [hm, ne_eq, not_true_eq_false, if_false, hb, herr]
  rw [if_neg (by simp [hpos])]

/-- A vote accepted by `VoteHandler` for an id below `2 ^ 32`, followed by a `StatsHandler`
request for the decimal text of that id: both respond 200, and the body of the second is the
JSON object with that id and its former count plus one, modulo `2 ^ 64`. -/
theorem VoteHandler_then_StatsHandler (json : JSONCodec) (s : Service) (we1 we2 : Option String)
    (r r2 : Request) (h : Heap) (id : Nat)
    (hm : r.Method = MethodPost) (hb : r.Body.2 = none)
    (herr : (json.Unmarshal r.Body.1 { CandidateID := 0, Passport := "" }).2 = none)
    (hid : (json.Unmarshal r.Body.1 { CandidateID := 0, Passport := "" }).1.CandidateID = id)
    (hpos : 0 < id) (hlt : id < 2 ^ 32)
    (hq : r2.Query.Get "candidate_id" = Nat.repr id) :
    (VoteHandler json s (ResponseWriter.fresh we1) r h).w.Code = 200 ∧
    (StatsHandler json s (ResponseWriter.fresh we2) r2
        (VoteHandler json s (ResponseWriter.fresh we1) r h).heap).w.Code = 200 ∧
    (StatsHandler json s (ResponseWriter.fresh we2) r2
        (VoteHandler json s (ResponseWriter.fresh we1) r h).heap).w.Body =
      "\x7b\"candidate_id\":" ++ Nat.repr id ++ ",\"votes\":" ++
        Nat.repr (((h.maps s.stats).index id + 1) % 2 ^ 64) ++ "\x7d" ∧
    (h.maps s.stats id = none →
      (StatsHandler json s (ResponseWriter.fresh we2) r2
          (VoteHandler json s (ResponseWriter.fresh we1) r h).heap).w.Body =
        "\x7b\"candidate_id\":" ++ Nat.repr id ++ ",\"votes\":" ++ Nat.repr 1 ++ "\x7d") ∧
    (∀ c, h.maps s.stats id = some c → c + 1 < 2 ^ 64 →
      (StatsHandler json s (ResponseWriter.fresh we2) r2
          (VoteHandler json s (ResponseWriter.fresh we1) r h).heap).w.Body =
        "\x7b\"candidate_id\":" ++ Nat.repr id ++ ",\"votes\":" ++ Nat.repr (c + 1) ++ "\x7d") := by
  have hvote := VoteHandler_accepts json s (ResponseWriter.fresh we1) r h hm hb herr
    (by rw [hid]; omega)
  rw [hid] at hvote
  have hentry : (AddVote s id h).maps s.stats id
      = some (((h.maps s.stats).index id + 1) % 2 ^ 64) := by
    rw [AddVote_maps_self, if_pos rfl, uintMod_eq]
  have hstats := StatsHandler_parsed json s (ResponseWriter.fresh we2) r2 (AddVote s id h) id
    (by rw [hq]; exact repr_ne_empty id) (by rw [hq]; exact ParseUint_repr id hlt)
  rw [hentry] at hstats
  simp only at hstats
  have hw := writeJSON_fresh we2
    (marshalStatsResponse
      { CandidateID := id, Votes := ((h.maps s.stats).index id + 1) % 2 ^ 64 }).1
    (AddVote s id h)
  have hbody : (StatsHandler json s (ResponseWriter.fresh we2) r2
        (VoteHandler json s (ResponseWriter.fresh we1) r h).heap).w.Body =
      "\x7b\"candidate_id\":" ++ Nat.repr id ++ ",\"votes\":" ++
        Nat.repr (((h.maps s.stats).index id + 1) % 2 ^ 64) ++ "\x7d" := by
    rw [hvote, hstats, hw.2.1, marshalStatsResponse_eq]
  refine ⟨by rw [hvote]; rfl, by rw [hvote, hstats]; exact hw.1, hbody, fun hnone => ?_,
    fun c hc hc1 => ?_⟩
  · rw [hbody]
    simp [GoMap.index, hnone]
  · rw [hbody]
    simp only [GoMap.index, hc, Option.getD_some]
    rw [Nat.mod_eq_of_lt hc1]

/-- C7, as stated, fails, in two ways. (a) On a new store, `VoteHandler` accepts a POST whose
body carries candidate id `2 ^ 32 = 4294967296` (status 200, one vote recorded for it), and the
following `StatsHandler` request with `candidate_id` set to the decimal text of that id is
answered with status 400, not 200. (b) On the store reached by `2 ^ 64 - 1` votes for candidate
5, whose count is then `2 ^ 64 - 1`, one more accepted vote for 5 makes `StatsHandler` report
`"votes":0`, not one more than the count before. -/
theorem C7_counterexample :
    ((VoteHandler sampleCodec (afterVotes Heap.init []).1 (ResponseWriter.fresh none)
        { Method := "POST", Body := ("\x7b\"candidate_id\": 4294967296\x7d", none),
          Query := fun _ => [] }
        (afterVotes Heap.init []).2).w.Code = 200 ∧
    GetStatsForCandidate (afterVotes Heap.init []).1 4294967296
      (VoteHandler sampleCodec (afterVotes Heap.init []).1 (ResponseWriter.fresh none)
        { Method := "POST", Body := ("\x7b\"candidate_id\": 4294967296\x7d", none),
          Query := fun _ => [] }
        (afterVotes Heap.init []).2).heap = (1, none) ∧
    (StatsHandler sampleCodec (afterVotes Heap.init []).1 (ResponseWriter.fresh none)
        { Method := "GET", Body := ("", none), Query := queryCandidate (Nat.repr 4294967296) }
        (VoteHandler sampleCodec (afterVotes Heap.init []).1 (ResponseWriter.fresh none)
          { Method := "POST", Body := ("\x7b\"candidate_id\": 4294967296\x7d", none),
            Query := fun _ => [] }
          (afterVotes Heap.init []).2).heap).w.Code = 400) ∧
    (GetStatsForCandidate (afterVotes Heap.init (List.replicate (2 ^ 64 - 1) 5)).1 5
        (afterVotes Heap.init (List.replicate (2 ^ 64 - 1) 5)).2 = (2 ^ 64 - 1, none) ∧
    (StatsHandler sampleCodec (afterVotes Heap.init (List.replicate (2 ^ 64 - 1) 5)).1
        (ResponseWriter.fresh none)
        { Method := "GET", Body := ("", none), Query := queryCandidate (Nat.repr 5) }
        (VoteHandler sampleCodec (afterVotes Heap.init (List.replicate (2 ^ 64 - 1) 5)).1
          (ResponseWriter.fresh none)
          { Method := "POST", Body := ("\x7b\"candidate_id\": 5\x7d", none),
            Query := fun _ => [] }
          (afterVotes Heap.init (List.replicate (2 ^ 64 - 1) 5)).2).heap).w.Body
      = "\x7b\"candidate_id\":5,\"votes\":0\x7d") := by
  refine ⟨⟨by decide, by decide, by decide⟩, ?_, ?_⟩
  · rw [GetStatsForCandidate_afterVotes]
    have hin : (5 : Nat) ∈ List.replicate (2 ^ 64 - 1) 5 := by
      rw [List.mem_replicate]; exact ⟨by norm_num, rfl⟩
    rw [if_pos hin, count_replicate_self, uintMod_eq, Nat.mod_eq_of_lt (by norm_num)]
  · have hgen := VoteHandler_then_StatsHandler sampleCodec
      (afterVotes Heap.init (List.replicate (2 ^ 64 - 1) 5)).1 none none
      { Method := "POST", Body := ("\x7b\"candidate_id\": 5\x7d", none), Query := fun _ => [] }
      { Method := "GET", Body := ("", none), Query := queryCandidate (Nat.repr 5) }
      (afterVotes Heap.init (List.replicate (2 ^ 64 - 1) 5)).2 5
      (by decide) (by decide) (by decide) (by decide) (by decide) (by decide) (by decide)
    rw [hgen.2.2.1]
    have hin : (5 : Nat) ∈ List.replicate (2 ^ 64 - 1) 5 := by
      rw [List.mem_replicate]; exact ⟨by norm_num, rfl⟩
    have hidx : ((afterVotes Heap.init (List.replicate (2 ^ 64 - 1) 5)).2.maps
        (afterVotes Heap.init (List.replicate (2 ^ 64 - 1) 5)).1.stats).index 5
          = 2 ^ 64 - 1 := by
      unfold GoMap.index
      rw [afterVotes_maps, if_pos hin, count_replicate_self, uintMod_eq,
        Nat.mod_eq_of_lt (by norm_num)]
      rfl
    rw [hidx]
    have hzero : (2 ^ 64 - 1 + 1) % 2 ^ 64 = 0 := by norm_num
    rw [hzero]
    decide

/-- C7, amended: for every store state and every POST request with a readable body that decodes
without error to a candidate id `id` with `0 < id < 2 ^ 32`, `VoteHandler` responds 200, and a
following `StatsHandler` request whose `candidate_id` is the decimal text of `id` responds 200
with the JSON object whose `candidate_id` is `id` and whose `votes` is the count of `id` before
the vote plus one, modulo `2 ^ 64`: 1 if `id` had no entry, and `c + 1` if it had count `c`
with `c + 1 < 2 ^ 64`. -/
theorem C7_vote_then_stats (json : JSONCodec) (s : Service) (we1 we2 : Option String)
    (r r2 : Request) (h : Heap) (id : Nat)
    (hm : r.Method = MethodPost) (hb : r.Body.2 = none)
    (herr : (json.Unmarshal r.Body.1 { CandidateID := 0, Passport := "" }).2 = none)
    (hid : (json.Unmarshal r.Body.1 { CandidateID := 0, Passport := "" }).1.CandidateID = id)
    (hpos : 0 < id) (hlt : id < 2 ^ 32)
    (hq : r2.Query.Get "candidate_id" = Nat.repr id) :
    (VoteHandler json s (ResponseWriter.fresh we1) r h).w.Code = 200 ∧
    (StatsHandler json s (ResponseWriter.fresh we2) r2
        (VoteHandler json s (ResponseWriter.fresh we1) r h).heap).w.Code = 200 ∧
    (StatsHandler json s (ResponseWriter.fresh we2) r2
        (VoteHandler json s (ResponseWriter.fresh we1) r h).heap).w.Body =
      "\x7b\"candidate_id\":" ++ Nat.repr id ++ ",\"votes\":" ++
        Nat.repr (((h.maps s.stats).index id + 1) % 2 ^ 64) ++ "\x7d" ∧
    (h.maps s.stats id = none →
      (StatsHandler json s (ResponseWriter.fresh we2) r2
          (VoteHandler json s (ResponseWriter.fresh we1) r h).heap).w.Body =
        "\x7b\"candidate_id\":" ++ Nat.repr id ++ ",\"votes\":" ++ Nat.repr 1 ++ "\x7d") ∧
    (∀ c, h.maps s.stats id = some c → c + 1 < 2 ^ 64 →
      (StatsHandler json s (ResponseWriter.fresh we2) r2
          (VoteHandler json s (ResponseWriter.fresh we1) r h).heap).w.Body =
        "\x7b\"candidate_id\":" ++ Nat.repr id ++ ",\"votes\":" ++ Nat.repr (c + 1) ++ "\x7d") :=
  VoteHandler_then_StatsHandler json s we1 we2 r r2 h id hm hb herr hid hpos hlt hq

/-- An instance of C7: a vote for candidate 5 on a new store, then the query for 5. -/
theorem C7_vote_then_stats_witness :
    (VoteHandler sampleCodec (afterVotes Heap.init []).1 (ResponseWriter.fresh none)
        { Method := "POST", Body := ("\x7b\"candidate_id\": 5\x7d", none), Query := fun _ => [] }
        (afterVotes Heap.init []).2).w.Code = 200 ∧
    (StatsHandler sampleCodec (afterVotes Heap.init []).1 (ResponseWriter.fresh none)
        { Method := "GET", Body := ("", none), Query := queryCandidate "5" }
        (VoteHandler sampleCodec (afterVotes Heap.init []).1 (ResponseWriter.fresh none)
          { Method := "POST", Body := ("\x7b\"candidate_id\": 5\x7d", none),
            Query := fun _ => [] }
          (afterVotes Heap.init []).2).heap).w.Code = 200 ∧
    (StatsHandler sampleCodec (afterVotes Heap.init []).1 (ResponseWriter.fresh none)
        { Method := "GET", Body := ("", none), Query := queryCandidate "5" }
        (VoteHandler sampleCodec (afterVotes Heap.init []).1 (ResponseWriter.fresh none)
          { Method := "POST", Body := ("\x7b\"candidate_id\": 5\x7d", none),
            Query := fun _ => [] }
          (afterVotes Heap.init []).2).heap).w.Body
      = "\x7b\"candidate_id\":" ++ Nat.repr 5 ++ ",\"votes\":" ++ Nat.repr 1 ++ "\x7d" :=
  have hthm := C7_vote_then_stats sampleCodec (afterVotes Heap.init []).1 none none
    { Method := "POST", Body := ("\x7b\"candidate_id\": 5\x7d", none), Query := fun _ => [] }
    { Method := "GET", Body := ("", none), Query := queryCandidate "5" }
    (afterVotes Heap.init []).2 5 (by decide) (by decide) (by decide) (by decide) (by decide)
    (by decide) (by decide)
  ⟨hthm.1, hthm.2.1, hthm.2.2.2.1 (by decide)⟩

/-- C8: for every store state and every non-empty `candidate_id` query value, `StatsHandler`
responds 400 if and only if the value does not parse as a base-10 unsigned integer in the range
`0 .. 2 ^ 32 - 1`; when it parses as `n`, the response is 404 if and only if `n` is absent from
the tally, and otherwise it is 200 with the JSON object carrying `n` and its current count; in
every case the heap, hence the tally, is unchanged. -/
theorem C8_StatsHandler_candidate (json : JSONCodec) (s : Service) (we : Option String)
    (r : Request) (h : Heap) (hv : r.Query.Get "candidate_id" ≠ "") :
    ((StatsHandler json s (ResponseWriter.fresh we) r h).w.Code = 400 ↔
      ¬ ∃ n, ParsesAsUint32 (r.Query.Get "candidate_id") n) ∧
    (∀ n, ParsesAsUint32 (r.Query.Get "candidate_id") n →
      ((StatsHandler json s (ResponseWriter.fresh we) r h).w.Code = 404 ↔
        h.maps s.stats n = none)) ∧
    (∀ n c, ParsesAsUint32 (r.Query.Get "candidate_id") n → h.maps s.stats n = some c →
      (StatsHandler json s (ResponseWriter.fresh we) r h).w.Code = 200 ∧
      (StatsHandler json s (ResponseWriter.fresh we) r h).w.Body =
        "\x7b\"candidate_id\":" ++ Nat.repr n ++ ",\"votes\":" ++ Nat.repr c ++ "\x7d" ∧
      (StatsHandler json s (ResponseWriter.fresh we) r h).w.Header =
        [("Content-Type", "application/json")]) ∧
    (StatsHandler json s (ResponseWriter.fresh we) r h).heap = h := by
  have hcases : ∀ n, ParsesAsUint32 (r.Query.Get "candidate_id") n →
      StatsHandler json s (ResponseWriter.fresh we) r h =
        match h.maps s.stats n with
        | none => { w := (ResponseWriter.fresh we).WriteHeader StatusNotFound, heap := h,
                    stdout := [] }
        | some c => writeJSON (ResponseWriter.fresh we)
            (marshalStatsResponse { CandidateID := n, Votes := c }).1 h :=
    fun n hn => StatsHandler_parsed json s _ r h n hv ((ParseUint_eq_iff _ n).mpr hn)
  have hparsed : ∀ n, ParsesAsUint32 (r.Query.Get "candidate_id") n →
      ((StatsHandler json s (ResponseWriter.fresh we) r h).w.Code = 404 ↔
        h.maps s.stats n = none) ∧
      (StatsHandler json s (ResponseWriter.fresh we) r h).w.Code ≠ 400 ∧
      (StatsHandler json s (ResponseWriter.fresh we) r h).heap = h ∧
      (∀ c, h.maps s.stats n = some c →
        (StatsHandler json s (ResponseWriter.fresh we) r h).w.Code = 200 ∧
        (StatsHandler json s (ResponseWriter.fresh we) r h).w.Body =
          "\x7b\"candidate_id\":" ++ Nat.repr n ++ ",\"votes\":" ++ Nat.repr c ++ "\x7d" ∧
        (StatsHandler json s (ResponseWriter.fresh we) r h).w.Header =
          [("Content-Type", "application/json")]) := by
    intro n hn
    rw [hcases n hn]
    cases hm : h.maps s.stats n with
    | none =>
      have hcode : ((ResponseWriter.fresh we).WriteHeader StatusNotFound).Code = 404 := rfl
      refine ⟨?_, ?_, rfl, fun c hc => by cases hc⟩
      · simp only [iff_true]
        exact hcode
      · show ((ResponseWriter.fresh we).WriteHeader StatusNotFound).Code ≠ 400
        rw [hcode]
        decide
    | some c =>
      have hw := writeJSON_fresh we (marshalStatsResponse { CandidateID := n, Votes := c }).1 h
      simp only
      refine ⟨?_, ?_, hw.2.2.2, fun c1 hc1 => ?_⟩
      · rw [hw.1]
        simp
      · rw [hw.1]
        decide
      · cases hc1
        exact ⟨hw.1, hw.2.1, hw.2.2.1⟩
  by_cases hp : ∃ n, ParsesAsUint32 (r.Query.Get "candidate_id") n
  · obtain ⟨n, hn⟩ := hp
    have huniq : ∀ m, ParsesAsUint32 (r.Query.Get "candidate_id") m → m = n := by
      intro m hm
      have h1 := hm.1
      rw [hn.1] at h1
      exact (Option.some.inj h1).symm
    obtain ⟨h404, h400, hheap, h200⟩ := hparsed n hn
    refine ⟨⟨fun hc => absurd hc h400, fun hno => absurd ⟨n, hn⟩ hno⟩, ?_, ?_, hheap⟩
    · intro m hm
      rw [huniq m hm]
      exact h404
    · intro m c hm hc
      rw [huniq m hm] at hc ⊢
      exact h200 c hc
  · have hout := StatsHandler_unparsable json s (ResponseWriter.fresh we) r h hv
      ((ParseUint_err_iff _).mpr hp)
    rw [hout]
    refine ⟨⟨fun _ => hp, fun _ => rfl⟩, fun n hn => absurd ⟨n, hn⟩ hp,
      fun n _ hn _ => absurd ⟨n, hn⟩ hp, rfl⟩

/-- An instance of C8: the query for 999 on a store with no vote for 999. -/
theorem C8_StatsHandler_candidate_witness :
    (StatsHandler sampleCodec (afterVotes Heap.init [5]).1 (ResponseWriter.fresh none)
        { Method := "GET", Body := ("", none), Query := queryCandidate "999" }
        (afterVotes Heap.init [5]).2).w.Code = 404 :=
  ((C8_StatsHandler_candidate sampleCodec (afterVotes Heap.init [5]).1 none
      { Method := "GET", Body := ("", none), Query := queryCandidate "999" }
      (afterVotes Heap.init [5]).2 (by decide)).2.1 999 ⟨by decide, by decide⟩).mpr (by decide)

/-- C9 fails on the code: `GetStats` returns the reference held in the field `stats`, not a
copy. On the store after one vote for candidate 1, the mapping `m` returned by `GetStats()`
reads `{1:1}`; after a later `AddVote(1)` the same `m` reads `{1:2}`; and storing 7 under key 1
through `m` makes `GetStatsForCandidate(1)` return 7. -/
theorem C9_GetStats_returns_live_map :
    GetStats (afterVotes Heap.init [1]).1 = (afterVotes Heap.init [1]).1.stats ∧
    (afterVotes Heap.init [1]).2.maps (GetStats (afterVotes Heap.init [1]).1) 1 = some 1 ∧
    (AddVote (afterVotes Heap.init [1]).1 1 (afterVotes Heap.init [1]).2).maps
        (GetStats (afterVotes Heap.init [1]).1) 1 = some 2 ∧
    GetStatsForCandidate (afterVotes Heap.init [1]).1 1 (afterVotes Heap.init [1]).2
      = (1, none) ∧
    GetStatsForCandidate (afterVotes Heap.init [1]).1 1
        ((afterVotes Heap.init [1]).2.store (GetStats (afterVotes Heap.init [1]).1)
          (((afterVotes Heap.init [1]).2.maps (GetStats (afterVotes Heap.init [1]).1)).set 1 7))
      = (7, none) := by
  refine ⟨rfl, by decide, by decide, by decide, by decide⟩

end VoteService
